import Mathlib

/-!
Shallow embedding of `src/autoregression/galgraphs.py` (the predpy
repository) and proofs about its feature classifier, scatter-matrix chunk
planner, and the error-handling behaviour of its plotting wrappers.

Modelling conventions:
* A pandas dataframe is a list of named, typed columns.  Cell values are
  abstracted as integers, since the code only compares values for equality
  (via `Series.unique`) and never computes with them.
* Numpy dtypes are an enumeration of exactly the dtypes the code compares
  against (`np.dtype` of int, float, O, <U, bool) plus representatives of
  the dtypes it ignores (datetime64, complex128).
* Drawing is modelled by returning a description of what would be drawn;
  a Python exception is modelled by `Except.error` carrying the message.
-/

namespace Galgraphs

/-- A numpy column dtype, as compared against in `sort_features`. -/
inductive Dtype
  | int64
  | float64
  | object
  | unicode
  | bool
  | datetime64
  | complex128
deriving DecidableEq

/-- One dataframe column: a name, a declared dtype, and the cell values
(abstracted as integers; only equality of values is ever used). -/
structure Column where
  name : String
  dtype : Dtype
  values : List Int
deriving DecidableEq

/-- The first `if` of the `sort_features` loop:
`type == np.dtype(int) or type == np.dtype(float)`. -/
def is_continuous_dtype (t : Dtype) : Bool :=
  t == Dtype.int64 || t == Dtype.float64

/-- The second `if` of the `sort_features` loop:
`type == np.dtype(O) or type == np.dtype(<U) or type == np.dtype(bool)`. -/
def is_category_dtype (t : Dtype) : Bool :=
  t == Dtype.object || t == Dtype.unicode || t == Dtype.bool

/-- `sort_features(df)` (galgraphs.py lines 24 to 35): walk the columns in
order, appending integer and float typed names to the continuous list and
object, unicode and bool typed names to the category list. -/
def sort_features : List Column → List String × List String
  | [] => ([], [])
  | c :: rest =>
    let p := sort_features rest
    (if is_continuous_dtype c.dtype then c.name :: p.1 else p.1,
     if is_category_dtype c.dtype then c.name :: p.2 else p.2)

/-- `len(df)`: the number of rows of the dataframe. -/
def nrows (df : List Column) : Nat :=
  match df with
  | [] => 0
  | c :: _ => c.values.length

/-- Lines 137 to 140 of `plot_scatter_matrix`:
`sample_limit = len(df) if len(df) < 300 else 300`. -/
def sample_limit (df : List Column) : Nat :=
  if nrows df < 300 then nrows df else 300

/-- The `while 5 < len(continuous_features)` loop of `plot_scatter_matrix`
(lines 144 to 155).  Each iteration renders the column set
`continuous_features[:6]` (prefixed by `y_var_name` when that is truthy)
and then advances by `continuous_features[5:]`.  The six-element pattern is
exactly the loop guard `5 < len`, the six listed heads are `[:6]`, and the
recursive call on `f :: rest` is `[5:]`. -/
def chunkLoop (y : Option String) : List String → List (List String)
  | a :: b :: c :: d :: e :: f :: rest =>
    (match y with
     | some n => n :: a :: b :: c :: d :: e :: [f]
     | none => a :: b :: c :: d :: e :: [f]) :: chunkLoop y (f :: rest)
  | _ => []

/-- The value of `continuous_features` once the `while` loop has exited:
repeatedly `[5:]` while more than five elements remain. -/
def chunkRest : List String → List String
  | _ :: _ :: _ :: _ :: _ :: f :: rest => chunkRest (f :: rest)
  | feats => feats

/-- Python truthiness of a string: `if y_var_name:` is false exactly for
the empty string (given that the name is present at all). -/
def python_truthy (s : String) : Bool := s != ""

/-- The full sequence of column sets rendered by `plot_scatter_matrix` for
a given dependent-variable name `n` and continuous feature list: the loop
chunks followed by the final `df[[y_var_name] + continuous_features]`
(line 156), which prefixes `n` unconditionally. -/
def chunk_plan (n : String) (feats : List String) : List (List String) :=
  chunkLoop (if python_truthy n then some n else none) feats ++
    [n :: chunkRest feats]

/-- `df.drop(n, axis=1)`: remove every column named `n`. -/
def drop_col (df : List Column) (n : String) : List Column :=
  df.filter (fun c => c.name != n)

/-- Whether the dataframe has a column named `n`. -/
def has_column (df : List Column) (n : String) : Bool :=
  df.any (fun c => c.name == n)

/-- The pandas error raised by `df.drop(None, axis=1)` on line 136 when no
dependent-variable name is supplied. -/
def drop_none_error : String :=
  "ValueError: Need to specify at least one of labels, index or columns"

/-- `plot_scatter_matrix(df, y_var_name)` (lines 121 to 157), modelled as
the chunk plan it renders together with the row-sample size used for every
chunk.  With `y_var_name=None` the very first statement,
`df.drop(None, axis=1)`, raises; with a name absent from the columns,
`df.drop` raises a KeyError.  Otherwise the continuous features of the
remaining columns are chunked by `chunk_plan` and each chunk is sampled
with `n=sample_limit`. -/
def plot_scatter_matrix (df : List Column) (y_var_name : Option String) :
    Except String (List (List String) × Nat) :=
  match y_var_name with
  | none => Except.error drop_none_error
  | some n =>
    if has_column df n then
      let cont := (sort_features (drop_col df n)).1
      let cont := if python_truthy n && cont.contains n then cont.erase n
        else cont
      Except.ok (chunk_plan n cont, sample_limit df)
    else
      Except.error ("KeyError: " ++ n)

/-- A fitted model object, reduced to what the plotting code inspects:
its class name (`model.__class__.__name__`), its repr (`f"{model}"`), the
optional `feature_importances_` attribute, and whether `predict_proba`
is in `dir(model)`. -/
structure Model where
  class_name : String
  repr : String
  feature_importances_ : Option (List Int)
  has_predict_proba : Bool

/-- An apostrophe, spelled via its code point. -/
def apostrophe : String := String.singleton (Char.ofNat 39)

/-- The message of the `ValueError` raised on line 305:
`f"Model: {model} doesn't have feature_importances_, unable to plot"`. -/
def importances_error (model : Model) : String :=
  "Model: " ++ model.repr ++ " doesn" ++ apostrophe ++
    "t have feature_importances_, unable to plot"

/-- The barh chart drawn by `plot_feature_importances`: feature names
paired with scores, sorted ascending by score. -/
structure FeatScores where
  index : List String
  scores : List Int
deriving DecidableEq

/-- Insert one (name, score) pair into a score-sorted list. -/
def insort (p : String × Int) : List (String × Int) → List (String × Int)
  | [] => [p]
  | q :: rest => if p.2 ≤ q.2 then p :: q :: rest else q :: insort p rest

/-- `feat_scores.sort_values(by=...)`: sort pairs ascending by score. -/
def sort_by_scores : List (String × Int) → List (String × Int)
  | [] => []
  | p :: rest => insort p (sort_by_scores rest)

/-- `plot_feature_importances(model, df_X)` (lines 285 to 306): when
`feature_importances_` is in `dir(model)` the scores are indexed by the
columns of `df_X`, sorted, and drawn as a barh chart; otherwise a
`ValueError` naming the model and the attribute is raised and nothing is
drawn. -/
def plot_feature_importances (model : Model) (df_X_columns : List String) :
    Except String FeatScores :=
  match model.feature_importances_ with
  | some scores =>
    let pairs := sort_by_scores (df_X_columns.zip scores)
    Except.ok ⟨pairs.map Prod.fst, pairs.map Prod.snd⟩
  | none => Except.error (importances_error model)

/-- The label of the ROC curve drawn by `plot_roc` (line 570):
`f"AUC {model.__class__.__name__} = %0.2f"` — the numeric suffix comes
from the external AUC computation, outside the modelled boundary. -/
def roc_curve_label (model : Model) : String :=
  "AUC " ++ model.class_name

/-- The labelled ROC curves drawn by one `plot_roc` call for one model. -/
def plot_roc_draw (model : Model) : List String :=
  [roc_curve_label model]

/-- `plot_rocs(models, ...)` (lines 578 to 604): iterate over the models
and draw a labelled ROC curve for each model with `predict_proba` in
`dir(model)`; other models are passed over with no drawing and no raise
(the function is total). -/
def plot_rocs (models : List Model) : List String :=
  models.foldl
    (fun curves m =>
      if m.has_predict_proba then curves ++ plot_roc_draw m else curves) []

/-- `len(df[x].unique())`: the number of distinct values of the column
named `x` (0 when absent, which never happens for names produced by
`sort_features`). -/
def unique_count (df : List Column) (x : String) : Nat :=
  match df.find? (fun c => c.name == x) with
  | some c => c.values.dedup.length
  | none => 0

/-- Line 207 of `plot_many_univariates`: the continuous features with
strictly more than two distinct values. -/
def continuous_features_greater_two (df : List Column) : List String :=
  ((sort_features df).1).filter (fun x => 2 < unique_count df x)

/-- What `plot_many_univariates` does: draw a two-column grid of
univariate plots, draw a single univariate plot, or print an
informational message and create no figure. -/
inductive UnivariatesOutcome
  | grid (nRows : Nat) (plotted : List String)
  | single (plotted : String)
  | message (text : String)
deriving DecidableEq

/-- `plot_many_univariates(df, y_var_name)` (lines 191 to 228): filter the
continuous features to those with more than two distinct values; with more
than one such feature draw a `ceil(n/2)` by 2 grid of univariate plots,
with exactly one draw a single plot, and with none print
`No Continous Features to Plot` (sic) and draw nothing. -/
def plot_many_univariates (df : List Column) (y_var_name : String) :
    UnivariatesOutcome :=
  let elig := continuous_features_greater_two df
  if 1 < elig.length then
    UnivariatesOutcome.grid ((elig.length + 1) / 2) elig
  else
    match elig with
    | [x] => UnivariatesOutcome.single x
    | _ => UnivariatesOutcome.message "No Continous Features to Plot"

/-- The features for which a univariate plot is actually drawn. -/
def plotted_features : UnivariatesOutcome → List String
  | UnivariatesOutcome.grid _ l => l
  | UnivariatesOutcome.single x => [x]
  | UnivariatesOutcome.message _ => []

end Galgraphs

namespace Galgraphs

/-- `sort_features` returns exactly the names of the integer and float
typed columns and the names of the object, unicode and bool typed columns,
each in original column order. -/
theorem sort_features_eq_filter (df : List Column) :
    sort_features df =
      ((df.filter fun c => is_continuous_dtype c.dtype).map Column.name,
       (df.filter fun c => is_category_dtype c.dtype).map Column.name) := by
  induction df with
  | nil => rfl
  | cons c rest ih =>
    simp only [sort_features, ih, List.filter_cons]
    by_cases h1 : is_continuous_dtype c.dtype <;>
      by_cases h2 : is_category_dtype c.dtype <;>
        simp [h1, h2]

/-- C8: classifying the schema a: float, b: object, c: bool, d: int yields
continuous = [a, d] and categorical = [b, c], orders preserved. -/
theorem sort_features_round_trip :
    sort_features
      [⟨"a", Dtype.float64, []⟩, ⟨"b", Dtype.object, []⟩,
       ⟨"c", Dtype.bool, []⟩, ⟨"d", Dtype.int64, []⟩] =
      (["a", "d"], ["b", "c"]) := by
  rfl

/-- The scatter-matrix while loop runs once per five features consumed:
its chunk count is `(length - 1) / 5`. -/
theorem chunkLoop_length (y : Option String) :
    ∀ feats : List String,
      (chunkLoop y feats).length = (feats.length - 1) / 5
  | a :: b :: c :: d :: e :: f :: rest => by
    have ih := chunkLoop_length y (f :: rest)
    simp only [chunkLoop, List.length_cons] at ih ⊢
    omega
  | [] => by simp [chunkLoop]
  | [_] => by simp [chunkLoop]
  | [_, _] => by simp [chunkLoop]
  | [_, _, _] => by simp [chunkLoop]
  | [_, _, _, _] => by simp [chunkLoop]
  | [_, _, _, _, _] => by simp [chunkLoop]

/-- C2: for a list of N continuous feature names, the chunk planner of
`plot_scatter_matrix` produces exactly ceil(N/5) chunks, except that
N at most 5 yields exactly one chunk. -/
theorem chunk_plan_count (n : String) (feats : List String) :
    (chunk_plan n feats).length =
      if feats.length ≤ 5 then 1 else (feats.length + 4) / 5 := by
  simp only [chunk_plan, List.length_append, List.length_cons,
    List.length_nil, chunkLoop_length]
  split <;> omega

/-- C1: evaluating the chunk planner on six continuous features a..f with
dependent variable y.  The first chunk holds six continuous features (the
code slices `[:6]` although it advances by `[5:]`) and the feature f
recurs in both chunks, so the at-most-5 bound and the exactly-once
concatenation invariant both fail. -/
theorem chunk_plan_six_wide :
    chunk_plan "y" ["a", "b", "c", "d", "e", "f"] =
      [["y", "a", "b", "c", "d", "e", "f"], ["y", "f"]] := by
  rfl

/-- C9: calling `plot_scatter_matrix` with no dependent-variable name
fails at once: line 136 executes `df.drop(None, axis=1)`, which raises,
so no chunk is ever produced. -/
theorem plot_scatter_matrix_none_fails (df : List Column) :
    plot_scatter_matrix df none = Except.error drop_none_error :=
  rfl

/-- C4: whenever `plot_scatter_matrix` succeeds, the row-sample size it
uses for every chunk equals min(300, row count), so sampling never
requests more rows than the dataframe contains. -/
theorem plot_scatter_matrix_sample_size (df : List Column) (n : String)
    (chunks : List (List String)) (sz : Nat)
    (h : plot_scatter_matrix df (some n) = Except.ok (chunks, sz)) :
    sz = min 300 (nrows df) ∧ sz ≤ nrows df := by
  have hsz : sz = sample_limit df := by
    simp only [plot_scatter_matrix] at h
    split at h
    · simp only [Except.ok.injEq, Prod.mk.injEq] at h
      exact h.2.symm
    · exact absurd h (by simp)
  subst hsz
  unfold sample_limit
  rw [Nat.min_def]
  constructor
  · split <;> split <;> omega
  · split <;> omega

/-- C4 witness: a three-row dataframe with dependent variable y and one
other continuous column gives one chunk sampled at 3 = min(300, 3) rows. -/
theorem plot_scatter_matrix_sample_size_witness :
    plot_scatter_matrix
        [⟨"y", Dtype.float64, [0, 1, 2]⟩, ⟨"a", Dtype.int64, [3, 4, 5]⟩]
        (some "y") =
      Except.ok ([["y", "a"]], 3) ∧
    (3 = min 300
        (nrows [⟨"y", Dtype.float64, [0, 1, 2]⟩,
                ⟨"a", Dtype.int64, [3, 4, 5]⟩]) ∧
      3 ≤ nrows [⟨"y", Dtype.float64, [0, 1, 2]⟩,
                 ⟨"a", Dtype.int64, [3, 4, 5]⟩]) :=
  ⟨by rfl, plot_scatter_matrix_sample_size _ "y" [["y", "a"]] 3 (by rfl)⟩

/-- The boolean continuous test holds exactly for the int64 and float64
dtypes. -/
theorem is_continuous_dtype_iff (t : Dtype) :
    is_continuous_dtype t = true ↔ t = Dtype.int64 ∨ t = Dtype.float64 := by
  simp [is_continuous_dtype]

/-- The boolean category test holds exactly for the object, unicode and
bool dtypes. -/
theorem is_category_dtype_iff (t : Dtype) :
    is_category_dtype t = true ↔
      t = Dtype.object ∨ t = Dtype.unicode ∨ t = Dtype.bool := by
  simp [is_category_dtype, or_assoc]

/-- C3: on a schema with distinct column names, every column lands in at
most one of the two lists returned by `sort_features`: int or float typed
columns only in the continuous list, object or unicode or bool typed
columns only in the category list, and columns of any other dtype in
neither list. -/
theorem sort_features_partition (df : List Column)
    (hnd : (df.map Column.name).Nodup) :
    (∀ c ∈ df, c.dtype = Dtype.int64 ∨ c.dtype = Dtype.float64 →
      c.name ∈ (sort_features df).1 ∧ c.name ∉ (sort_features df).2) ∧
    (∀ c ∈ df,
      c.dtype = Dtype.object ∨ c.dtype = Dtype.unicode ∨
          c.dtype = Dtype.bool →
      c.name ∈ (sort_features df).2 ∧ c.name ∉ (sort_features df).1) ∧
    (∀ c ∈ df,
      ¬(c.dtype = Dtype.int64 ∨ c.dtype = Dtype.float64) →
      ¬(c.dtype = Dtype.object ∨ c.dtype = Dtype.unicode ∨
          c.dtype = Dtype.bool) →
      c.name ∉ (sort_features df).1 ∧ c.name ∉ (sort_features df).2) := by
  rw [sort_features_eq_filter]
  have hinj := List.inj_on_of_nodup_map hnd
  refine ⟨?_, ?_, ?_⟩
  · intro c hc hdt
    refine ⟨List.mem_map.2
      ⟨c, List.mem_filter.2 ⟨hc, (is_continuous_dtype_iff _).2 hdt⟩, rfl⟩, ?_⟩
    intro hmem
    obtain ⟨c', hcf, hname⟩ := List.mem_map.1 hmem
    obtain ⟨hc', hp'⟩ := List.mem_filter.1 hcf
    cases hinj hc' hc hname
    rcases (is_category_dtype_iff _).1 hp' with h | h | h <;>
      rcases hdt with h2 | h2 <;> rw [h2] at h <;> exact Dtype.noConfusion h
  · intro c hc hdt
    refine ⟨List.mem_map.2
      ⟨c, List.mem_filter.2 ⟨hc, (is_category_dtype_iff _).2 hdt⟩, rfl⟩, ?_⟩
    intro hmem
    obtain ⟨c', hcf, hname⟩ := List.mem_map.1 hmem
    obtain ⟨hc', hp'⟩ := List.mem_filter.1 hcf
    cases hinj hc' hc hname
    rcases (is_continuous_dtype_iff _).1 hp' with h | h <;>
      rcases hdt with h2 | h2 | h2 <;> rw [h2] at h <;>
        exact Dtype.noConfusion h
  · intro c hc h1 h2
    constructor
    · intro hmem
      obtain ⟨c', hcf, hname⟩ := List.mem_map.1 hmem
      obtain ⟨hc', hp'⟩ := List.mem_filter.1 hcf
      cases hinj hc' hc hname
      exact h1 ((is_continuous_dtype_iff _).1 hp')
    · intro hmem
      obtain ⟨c', hcf, hname⟩ := List.mem_map.1 hmem
      obtain ⟨hc', hp'⟩ := List.mem_filter.1 hcf
      cases hinj hc' hc hname
      exact h2 ((is_category_dtype_iff _).1 hp')

/-- A concrete three-column schema (int, object, datetime) with distinct
names, used to witness the classification theorem. -/
def schema_witness : List Column :=
  [⟨"a", Dtype.int64, []⟩, ⟨"b", Dtype.object, []⟩,
   ⟨"t", Dtype.datetime64, []⟩]

/-- C3 witness: the classification theorem instantiated on a concrete
schema holding an int column, an object column and a datetime column. -/
theorem sort_features_partition_witness :
    (schema_witness.map Column.name).Nodup ∧
    ((∀ c ∈ schema_witness,
        c.dtype = Dtype.int64 ∨ c.dtype = Dtype.float64 →
        c.name ∈ (sort_features schema_witness).1 ∧
          c.name ∉ (sort_features schema_witness).2) ∧
     (∀ c ∈ schema_witness,
        c.dtype = Dtype.object ∨ c.dtype = Dtype.unicode ∨
            c.dtype = Dtype.bool →
        c.name ∈ (sort_features schema_witness).2 ∧
          c.name ∉ (sort_features schema_witness).1) ∧
     (∀ c ∈ schema_witness,
        ¬(c.dtype = Dtype.int64 ∨ c.dtype = Dtype.float64) →
        ¬(c.dtype = Dtype.object ∨ c.dtype = Dtype.unicode ∨
            c.dtype = Dtype.bool) →
        c.name ∉ (sort_features schema_witness).1 ∧
          c.name ∉ (sort_features schema_witness).2)) :=
  ⟨by decide, sort_features_partition schema_witness (by decide)⟩

/-- C5: for every model lacking the feature_importances_ attribute,
`plot_feature_importances` raises a ValueError whose message names the
model and the missing attribute, and the error branch draws nothing. -/
theorem plot_feature_importances_missing (model : Model)
    (cols : List String) (h : model.feature_importances_ = none) :
    plot_feature_importances model cols =
      Except.error ("Model: " ++ model.repr ++ " doesn" ++ apostrophe ++
        "t have feature_importances_, unable to plot") := by
  simp [plot_feature_importances, h, importances_error]

/-- C5 witness: a concrete model without the attribute produces exactly
the descriptive error. -/
theorem plot_feature_importances_missing_witness :
    (Model.mk "GaussianNB" "GaussianNB()" none false).feature_importances_
        = none ∧
    plot_feature_importances
        (Model.mk "GaussianNB" "GaussianNB()" none false) ["x1", "x2"] =
      Except.error ("Model: " ++ "GaussianNB()" ++ " doesn" ++ apostrophe ++
        "t have feature_importances_, unable to plot") :=
  ⟨rfl,
    plot_feature_importances_missing
      (Model.mk "GaussianNB" "GaussianNB()" none false) ["x1", "x2"] rfl⟩

/-- Accumulator form of the `plot_rocs` loop. -/
theorem plot_rocs_foldl (models : List Model) (acc : List String) :
    models.foldl
        (fun curves m =>
          if m.has_predict_proba then curves ++ plot_roc_draw m
          else curves) acc =
      acc ++
        (models.filter (fun m => m.has_predict_proba)).map roc_curve_label := by
  induction models generalizing acc with
  | nil => simp
  | cons m rest ih =>
    simp only [List.foldl_cons, List.filter_cons]
    by_cases h : m.has_predict_proba
    · rw [if_pos h, ih]
      simp [plot_roc_draw, h]
    · simp [h, ih]

/-- C6: `plot_rocs` silently skips models without predict_proba (it is a
total function, raising nothing) and draws exactly one labelled curve per
model that has predict_proba; in particular for [A with predict_proba,
B without] exactly one curve is drawn, labelled for A. -/
theorem plot_rocs_draws_exactly (models : List Model) :
    plot_rocs models =
      (models.filter (fun m => m.has_predict_proba)).map roc_curve_label ∧
    plot_rocs
        [Model.mk "LogisticRegression" "LogisticRegression()" none true,
         Model.mk "LinearRegression" "LinearRegression()" none false] =
      ["AUC LogisticRegression"] := by
  constructor
  · simpa using plot_rocs_foldl models []
  · rfl

/-- C7: when no continuous feature has more than two distinct values,
`plot_many_univariates` prints the informational message and creates no
figure (the message outcome carries no plotted feature). -/
theorem plot_many_univariates_no_features (df : List Column) (y : String)
    (h : continuous_features_greater_two df = []) :
    plot_many_univariates df y =
      UnivariatesOutcome.message "No Continous Features to Plot" := by
  simp [plot_many_univariates, h]

/-- C7 witness: a dataframe with one object column and one binary int
column has zero eligible features and yields the message outcome. -/
theorem plot_many_univariates_no_features_witness :
    continuous_features_greater_two
        [⟨"s", Dtype.object, [0, 0, 1]⟩, ⟨"k", Dtype.int64, [0, 1, 0]⟩]
      = [] ∧
    plot_many_univariates
        [⟨"s", Dtype.object, [0, 0, 1]⟩, ⟨"k", Dtype.int64, [0, 1, 0]⟩]
        "y" =
      UnivariatesOutcome.message "No Continous Features to Plot" :=
  ⟨by decide,
    plot_many_univariates_no_features _ "y" (by decide)⟩

/-- C10: a column is plotted by `plot_many_univariates` exactly when it is
classified continuous and has strictly more than two distinct values, and
the no-features message appears exactly when that filtered list is
empty. -/
theorem plot_many_univariates_plotted_iff (df : List Column) (y : String) :
    plotted_features (plot_many_univariates df y) =
      ((sort_features df).1).filter (fun x => 2 < unique_count df x) ∧
    (plot_many_univariates df y =
        UnivariatesOutcome.message "No Continous Features to Plot" ↔
      ((sort_features df).1).filter (fun x => 2 < unique_count df x)
        = []) := by
  have hdef : ((sort_features df).1).filter (fun x => 2 < unique_count df x)
      = continuous_features_greater_two df := rfl
  rw [hdef]
  rcases hE : continuous_features_greater_two df with _ | ⟨x, l2⟩
  · simp [plot_many_univariates, hE, plotted_features]
  · rcases l2 with _ | ⟨z, rest⟩
    · simp [plot_many_univariates, hE, plotted_features]
    · constructor
      · have hcond : 1 < (x :: z :: rest).length := by
          simp
        simp [plot_many_univariates, hE, hcond, plotted_features]
      · have hcond : 1 < (x :: z :: rest).length := by
          simp
        simp [plot_many_univariates, hE, hcond]

end Galgraphs
